import Mathlib

/-!
Verification of the template-formatting core (`src/core/src/templates.rs`).

The embedding below translates each Rust item into a Lean definition:

* `strContains s pat` models Rust `str::contains` with a string pattern:
  case-sensitive contiguous substring containment, stated as infix
  containment of the character lists (for valid UTF-8 strings, byte-level
  substring matching at pattern boundaries coincides with character-list
  infix containment).
* `Qwen3RerankerTemplate` and its constructor `Qwen3RerankerTemplate.new`
  model the struct of the same name and its `new` function.
* `Qwen3RerankerTemplate.format_rerank` models the `TemplateFormatter`
  implementation for `Qwen3RerankerTemplate`: the sequence of `push_str`
  and `write!` calls that build the prompt string, written as successive
  appends to an accumulator, exactly in source order.
* `fmtWrite` models `std::fmt::Write::write_str` for `String`, which
  always returns `Ok`; `Qwen3RerankerTemplate.format_rerank_checked`
  re-runs the body of `format_rerank` with every `write!` kept in the
  `Except` monad instead of being `unwrap`ped, so that reachability of
  the error branch can be settled as a theorem.
* `requires_template` and `get_template_formatter` model the two free
  functions of the file.
-/

/-- Models Rust `str::contains(pattern)` for a string pattern: `pat` occurs
as a contiguous (case-sensitive) substring of `s`, as infix containment of
the character lists. -/
def strContains (s pat : String) : Bool :=
  decide (pat.toList <:+: s.toList)

/-- Models `struct Qwen3RerankerTemplate { default_instruction: String }`. -/
structure Qwen3RerankerTemplate where
  default_instruction : String
deriving DecidableEq

/-- Models `Qwen3RerankerTemplate::new()`. -/
def Qwen3RerankerTemplate.new : Qwen3RerankerTemplate :=
  { default_instruction :=
      "Given a web search query, retrieve relevant passages that answer the query" }

/-- Models `<Qwen3RerankerTemplate as TemplateFormatter>::format_rerank`.
Each `let result := result ++ _` step is one `push_str`/`write!` call of
the source, in source order; `write!(dest, "<X>: {}\n", v)` appends the
formatted text `"<X>: " ++ v ++ "\n"` (its `unwrap` is modelled separately
by `format_rerank_checked`). -/
def Qwen3RerankerTemplate.format_rerank (self : Qwen3RerankerTemplate)
    (query document : String) (instruction : Option String) : String :=
  let instruction := instruction.getD self.default_instruction
  let result := ""
  let result := result ++ "<|im_start|>system\n"
  let result := result ++ "Judge whether the Document meets the requirements based on the Query and the Instruct provided. Note that the answer can only be \"yes\" or \"no\".<|im_end|>\n"
  let result := result ++ "<|im_start|>user\n"
  let result := result ++ ("<Instruct>: " ++ instruction ++ "\n")
  let result := result ++ ("<Query>: " ++ query ++ "\n")
  let result := result ++ ("<Document>: " ++ document)
  let result := result ++ "<|im_end|>\n"
  let result := result ++ "<|im_start|>assistant\n"
  result

/-- Models `std::fmt::Write::write_str` for `String`: appending to an
in-memory string buffer never fails, so the result is always `Except.ok`. -/
def fmtWrite (dest s : String) : Except Unit String :=
  Except.ok (dest ++ s)

/-- The body of `format_rerank` with each fallible `write!` step kept in
the `Except` monad (an `Except.error` value models the `Err` case whose
`unwrap` would panic in the source). -/
def Qwen3RerankerTemplate.format_rerank_checked (self : Qwen3RerankerTemplate)
    (query document : String) (instruction : Option String) : Except Unit String := do
  let instruction := instruction.getD self.default_instruction
  let result := ""
  let result := result ++ "<|im_start|>system\n"
  let result := result ++ "Judge whether the Document meets the requirements based on the Query and the Instruct provided. Note that the answer can only be \"yes\" or \"no\".<|im_end|>\n"
  let result := result ++ "<|im_start|>user\n"
  let result ← fmtWrite result ("<Instruct>: " ++ instruction ++ "\n")
  let result ← fmtWrite result ("<Query>: " ++ query ++ "\n")
  let result ← fmtWrite result ("<Document>: " ++ document)
  let result := result ++ "<|im_end|>\n"
  let result := result ++ "<|im_start|>assistant\n"
  return result

/-- Models `requires_template(model_name)`. -/
def requires_template (model_name : String) : Bool :=
  strContains model_name "Qwen3" &&
    (strContains model_name "Reranker" || strContains model_name "seq-cls")

/-- Models `get_template_formatter(model_name)`: the `Box<dyn ...>` holds a
`Qwen3RerankerTemplate`, the only implementation in the file. -/
def get_template_formatter (model_name : String) : Option Qwen3RerankerTemplate :=
  if requires_template model_name then some Qwen3RerankerTemplate.new else none

/-- Spec-level substring containment, following the spec's words
("case-sensitive substring containment"): `s` splits as some prefix,
then `pat` verbatim, then some suffix. Used to compare the code's
`strContains` against the specified notion. -/
def SpecSubstring (pat s : String) : Prop :=
  ∃ p q, s = p ++ pat ++ q

/-- Bridge between the code's `strContains` and the spec-level
decomposition of the string around the pattern. -/
theorem strContains_iff (s pat : String) :
    strContains s pat = true ↔ SpecSubstring pat s := by
  unfold strContains SpecSubstring
  rw [decide_eq_true_iff]
  constructor
  · rintro ⟨l₁, l₂, h⟩
    refine ⟨String.mk l₁, String.mk l₂, ?_⟩
    apply String.ext
    simp only [String.data_append]
    exact h.symm
  · rintro ⟨p, q, h⟩
    refine ⟨p.data, q.data, ?_⟩
    have : s.data = p.data ++ pat.data ++ q.data := by
      rw [h]; simp [String.data_append]
    simpa [String.toList] using this.symm

/-- Appending to the freshly constructed empty accumulator
(`String::with_capacity` starts empty) is the identity. -/
theorem str_empty_append (s : String) : "" ++ s = s := by
  apply String.ext
  rw [String.data_append]
  rfl

/-- Closed form of `format_rerank`: the accumulator built by the source's
`push_str`/`write!` sequence equals one literal prefix, the effective
instruction, the query, the document, and the literal closing markers. -/
theorem Qwen3RerankerTemplate.format_rerank_eq (t : Qwen3RerankerTemplate)
    (q d : String) (i : Option String) :
    t.format_rerank q d i =
      "<|im_start|>system\nJudge whether the Document meets the requirements based on the Query and the Instruct provided. Note that the answer can only be \"yes\" or \"no\".<|im_end|>\n<|im_start|>user\n<Instruct>: "
        ++ i.getD t.default_instruction ++ "\n<Query>: " ++ q ++ "\n<Document>: " ++ d
        ++ "<|im_end|>\n<|im_start|>assistant\n" := by
  have e1 : ("<|im_start|>system\nJudge whether the Document meets the requirements based on the Query and the Instruct provided. Note that the answer can only be \"yes\" or \"no\".<|im_end|>\n<|im_start|>user\n<Instruct>: " : String)
      = "<|im_start|>system\n"
        ++ "Judge whether the Document meets the requirements based on the Query and the Instruct provided. Note that the answer can only be \"yes\" or \"no\".<|im_end|>\n"
        ++ "<|im_start|>user\n" ++ "<Instruct>: " := rfl
  have e2 : ("\n<Query>: " : String) = "\n" ++ "<Query>: " := rfl
  have e3 : ("\n<Document>: " : String) = "\n" ++ "<Document>: " := rfl
  have e4 : ("<|im_end|>\n<|im_start|>assistant\n" : String)
      = "<|im_end|>\n" ++ "<|im_start|>assistant\n" := rfl
  rw [e1, e2, e3, e4]
  simp only [Qwen3RerankerTemplate.format_rerank, str_empty_append, String.append_assoc]

/-- C1: for every query, document, and optional instruction, `format_rerank`
returns exactly the system block, then the user block with the effective
instruction (the supplied one if present, else the instance's default),
query, and document inserted verbatim, then the open assistant block, as
one single string. -/
theorem format_rerank_exact_output (t : Qwen3RerankerTemplate)
    (q d : String) (i : Option String) :
    t.format_rerank q d i =
      "<|im_start|>system\nJudge whether the Document meets the requirements based on the Query and the Instruct provided. Note that the answer can only be \"yes\" or \"no\".<|im_end|>\n<|im_start|>user\n<Instruct>: "
        ++ i.getD t.default_instruction ++ "\n<Query>: " ++ q ++ "\n<Document>: " ++ d
        ++ "<|im_end|>\n<|im_start|>assistant\n" :=
  Qwen3RerankerTemplate.format_rerank_eq t q d i

/-- C2: `requires_template` returns true exactly when the model name
contains the substring "Qwen3" and also contains "Reranker" or "seq-cls"
(case-sensitive substring containment, stated via the spec-level
decomposition `SpecSubstring`), and it classifies the six sample model
names as the spec lists them. -/
theorem requires_template_characterization :
    (∀ m : String, requires_template m = true ↔
      SpecSubstring "Qwen3" m ∧
        (SpecSubstring "Reranker" m ∨ SpecSubstring "seq-cls" m)) ∧
    requires_template "tomaarsen/Qwen3-Reranker-0.6B-seq-cls" = true ∧
    requires_template "Qwen3-Something-seq-cls" = true ∧
    requires_template "Qwen/Qwen3-Reranker-0.6B" = true ∧
    requires_template "Qwen3-Reranker-4B" = true ∧
    requires_template "BAAI/bge-reranker" = false ∧
    requires_template "Qwen3-Embed" = false := by
  refine ⟨?_, by decide, by decide, by decide, by decide, by decide, by decide⟩
  intro m
  unfold requires_template
  rw [Bool.and_eq_true, Bool.or_eq_true, strContains_iff, strContains_iff, strContains_iff]

/-- C3: the factory returns the absent value exactly when
`requires_template` is false, and any formatter it does return is the
`Qwen3RerankerTemplate.new` instance, so its `format_rerank` behaves
identically to that of `Qwen3RerankerTemplate.new`. -/
theorem get_template_formatter_spec (n q d : String) (i : Option String) :
    (get_template_formatter n = none ↔ requires_template n = false) ∧
    ∀ t, get_template_formatter n = some t →
      t.format_rerank q d i = Qwen3RerankerTemplate.new.format_rerank q d i := by
  constructor
  · unfold get_template_formatter
    rcases hb : requires_template n with _ | _ <;> simp [hb]
  · intro t ht
    unfold get_template_formatter at ht
    rcases hb : requires_template n with _ | _ <;> rw [hb] at ht <;> simp at ht
    rw [← ht]

/-- Witness for C3 at the concrete model name "Qwen3-Reranker-4B", whose
factory result is `some Qwen3RerankerTemplate.new`. -/
theorem get_template_formatter_spec_witness :
    Qwen3RerankerTemplate.new.format_rerank "a query" "a document" none =
      Qwen3RerankerTemplate.new.format_rerank "a query" "a document" none :=
  (get_template_formatter_spec "Qwen3-Reranker-4B" "a query" "a document" none).2
    Qwen3RerankerTemplate.new (by decide)

/-- C4: the `new` instance's default instruction is exactly the literal
text fixed at construction; with an absent instruction that text is
inserted after `<Instruct>: `, and with a supplied instruction the
supplied text is inserted there instead of the default. -/
theorem default_instruction_behavior :
    Qwen3RerankerTemplate.new.default_instruction =
      "Given a web search query, retrieve relevant passages that answer the query" ∧
    (∀ q d, Qwen3RerankerTemplate.new.format_rerank q d none =
      "<|im_start|>system\nJudge whether the Document meets the requirements based on the Query and the Instruct provided. Note that the answer can only be \"yes\" or \"no\".<|im_end|>\n<|im_start|>user\n<Instruct>: "
        ++ "Given a web search query, retrieve relevant passages that answer the query"
        ++ "\n<Query>: " ++ q ++ "\n<Document>: " ++ d
        ++ "<|im_end|>\n<|im_start|>assistant\n") ∧
    ∀ q d ins, Qwen3RerankerTemplate.new.format_rerank q d (some ins) =
      "<|im_start|>system\nJudge whether the Document meets the requirements based on the Query and the Instruct provided. Note that the answer can only be \"yes\" or \"no\".<|im_end|>\n<|im_start|>user\n<Instruct>: "
        ++ ins ++ "\n<Query>: " ++ q ++ "\n<Document>: " ++ d
        ++ "<|im_end|>\n<|im_start|>assistant\n" := by
  refine ⟨rfl, ?_, ?_⟩
  · intro q d
    exact Qwen3RerankerTemplate.format_rerank_eq Qwen3RerankerTemplate.new q d none
  · intro q d ins
    exact Qwen3RerankerTemplate.format_rerank_eq Qwen3RerankerTemplate.new q d (some ins)

/-- C5: every operation of the core is total. The classifier and factory
return a value for every input, and re-running the body of
`format_rerank` with each `write!` step kept fallible always reaches
`Except.ok` with the same string, so the `unwrap` error branch of the
source is unreachable. -/
theorem operations_total (t : Qwen3RerankerTemplate) (q d : String)
    (i : Option String) (n : String) :
    t.format_rerank_checked q d i = Except.ok (t.format_rerank q d i) ∧
    (requires_template n = true ∨ requires_template n = false) ∧
    ((get_template_formatter n).isSome = true ∨
      (get_template_formatter n).isNone = true) := by
  refine ⟨rfl, ?_, ?_⟩
  · rcases requires_template n with _ | _ <;> simp
  · rcases get_template_formatter n with _ | _ <;> simp

/-- C6: every output of `format_rerank` decomposes so that an occurrence
of `<|im_start|>system` precedes an occurrence of `<Query>:`, which
precedes an occurrence of `<Document>:`, which precedes an occurrence of
`<|im_start|>assistant`: the system, user, and assistant segments appear
in that order, none omitted. -/
theorem format_rerank_segment_order (t : Qwen3RerankerTemplate)
    (q d : String) (i : Option String) :
    ∃ a₁ a₂ a₃ a₄ a₅ : String,
      t.format_rerank q d i =
        a₁ ++ "<|im_start|>system" ++ a₂ ++ "<Query>:" ++ a₃
          ++ "<Document>:" ++ a₄ ++ "<|im_start|>assistant" ++ a₅ := by
  refine ⟨"",
    "\nJudge whether the Document meets the requirements based on the Query and the Instruct provided. Note that the answer can only be \"yes\" or \"no\".<|im_end|>\n<|im_start|>user\n<Instruct>: "
      ++ i.getD t.default_instruction ++ "\n",
    " " ++ q ++ "\n", " " ++ d ++ "<|im_end|>\n", "\n", ?_⟩
  rw [Qwen3RerankerTemplate.format_rerank_eq]
  have e1 : ("<|im_start|>system\nJudge whether the Document meets the requirements based on the Query and the Instruct provided. Note that the answer can only be \"yes\" or \"no\".<|im_end|>\n<|im_start|>user\n<Instruct>: " : String)
      = "<|im_start|>system"
        ++ "\nJudge whether the Document meets the requirements based on the Query and the Instruct provided. Note that the answer can only be \"yes\" or \"no\".<|im_end|>\n<|im_start|>user\n<Instruct>: " := rfl
  have e2 : ("\n<Query>: " : String) = "\n" ++ "<Query>:" ++ " " := rfl
  have e3 : ("\n<Document>: " : String) = "\n" ++ "<Document>:" ++ " " := rfl
  have e4 : ("<|im_end|>\n<|im_start|>assistant\n" : String)
      = "<|im_end|>\n" ++ "<|im_start|>assistant" ++ "\n" := rfl
  rw [e1, e2, e3, e4]
  simp only [str_empty_append, String.append_assoc]

/-- C7: classification is closed under embedding into longer strings: a
model name classified as needing the template still matches after
arbitrary text is prepended and appended. -/
theorem requires_template_embed_closed (m p s : String)
    (h : requires_template m = true) :
    requires_template (p ++ m ++ s) = true := by
  unfold requires_template strContains at h ⊢
  rw [Bool.and_eq_true, Bool.or_eq_true, decide_eq_true_iff, decide_eq_true_iff,
    decide_eq_true_iff] at h ⊢
  have hlist : (p ++ m ++ s).toList = p.toList ++ m.toList ++ s.toList := by
    simp [String.toList, String.data_append]
  rw [hlist]
  have emb : ∀ l : List Char, l <:+: m.toList →
      l <:+: p.toList ++ m.toList ++ s.toList := by
    intro l hl
    exact hl.trans (List.infix_append p.toList m.toList s.toList)
  exact ⟨emb _ h.1, h.2.elim (fun h2 => Or.inl (emb _ h2)) (fun h2 => Or.inr (emb _ h2))⟩

/-- Witness for C7: "Qwen3-Reranker-4B" requires the template, and so does
its embedding "Qwen/Qwen3-Reranker-4B-AWQ". -/
theorem requires_template_embed_closed_witness :
    requires_template ("Qwen/" ++ "Qwen3-Reranker-4B" ++ "-AWQ") = true :=
  requires_template_embed_closed "Qwen3-Reranker-4B" "Qwen/" "-AWQ" (by decide)

/-- C8: `format_rerank` is deterministic: two instances with the same
default instruction produce byte-identical output on identical query,
document, and instruction arguments; the output depends on nothing but
(query, document, instruction-or-default). -/
theorem format_rerank_deterministic (t₁ t₂ : Qwen3RerankerTemplate)
    (q d : String) (i : Option String)
    (h : t₁.default_instruction = t₂.default_instruction) :
    t₁.format_rerank q d i = t₂.format_rerank q d i := by
  rw [Qwen3RerankerTemplate.format_rerank_eq, Qwen3RerankerTemplate.format_rerank_eq, h]

/-- Witness for C8 at two separately constructed `new` instances and
concrete arguments. -/
theorem format_rerank_deterministic_witness :
    Qwen3RerankerTemplate.new.format_rerank "same query" "same document"
        (some "same instruction") =
      Qwen3RerankerTemplate.new.format_rerank "same query" "same document"
        (some "same instruction") :=
  format_rerank_deterministic Qwen3RerankerTemplate.new Qwen3RerankerTemplate.new
    "same query" "same document" (some "same instruction") rfl

/-- C9: calling `format_rerank` with the absent instruction yields exactly
the same string as supplying the default instruction text explicitly. -/
theorem format_rerank_none_eq_some_default (q d : String) :
    Qwen3RerankerTemplate.new.format_rerank q d none =
      Qwen3RerankerTemplate.new.format_rerank q d
        (some "Given a web search query, retrieve relevant passages that answer the query") :=
  rfl

set_option maxRecDepth 8192 in
/-- C10: `format_rerank` is not injective: two distinct (query, document,
instruction) triples — obtained by moving the text "\n<Document>: B" from
the end of the query into the document — format to byte-identical output,
since inputs are inserted verbatim with no escaping. -/
theorem format_rerank_not_injective :
    ("A\n<Document>: B", "C", (none : Option String)) ≠
      ("A", "B\n<Document>: C", (none : Option String)) ∧
    Qwen3RerankerTemplate.new.format_rerank "A\n<Document>: B" "C" none =
      Qwen3RerankerTemplate.new.format_rerank "A" "B\n<Document>: C" none :=
  ⟨by decide, rfl⟩
